import Mathlib

/-!
Shallow embedding of the pong game (src/pong.c, src/support.c, src/support.h)
and verification of its specification claims.

All quantities that are C `int`s are modelled as `Int`.  Quantities that
depend on the terminal size (`getmaxy(stdscr)`) are parameterised by the
screen height `H : Int`.  Flags that the C code uses as booleans
(`exit_flag`, `play_flag`, `termination_flag`) are modelled as `Bool`;
`winner` keeps the C convention `0` for the player and `1` for the AI.
-/

namespace Pong

/-- Constant `PADDLE_WIDTH` from support.h: width of the paddles. -/
def PADDLE_WIDTH : Int := 5

/-- Constant `PADDLE_TOP` from support.h: `PADDLE_WIDTH / 2` (C truncating division). -/
def PADDLE_TOP : Int := PADDLE_WIDTH / 2

/-- Constant `PADDLE_BOT` from support.h: `getmaxy(stdscr) - PADDLE_WIDTH / 2 - 1`,
with the screen height `getmaxy(stdscr)` as parameter `H`. -/
def PADDLE_BOT (H : Int) : Int := H - PADDLE_WIDTH / 2 - 1

/-- Constant `FIELD_TOP` from support.h. -/
def FIELD_TOP : Int := 0

/-- Constant `FIELD_BOT` from support.h: `getmaxy(stdscr) - 1` with height parameter. -/
def FIELD_BOT (H : Int) : Int := H - 1

/-- Tag `KBD_TAG` from support.h. -/
def KBD_TAG : String := "k"

/-- Tag `AI_TAG` from support.h. -/
def AI_TAG : String := "a"

/-- Tag `BALL_TAG` from support.h. -/
def BALL_TAG : String := "b"

/-- Tag `QUIT_TAG` from support.h. -/
def QUIT_TAG : String := "q"

/-- The shared `game_data` structure from support.h (the fields that carry
game state; the pipe descriptors and the mutex are part of the effect model,
not of the data). -/
structure game_data where
  paddle_pos : Int
  paddle_col : Int
  ai_paddle_pos : Int
  ai_paddle_col : Int
  ball_x : Int
  ball_y : Int
  paddle_pos_old : Int
  ai_paddle_pos_old : Int
  ball_x_old : Int
  ball_y_old : Int
  exit_flag : Bool
  play_flag : Bool
  ball_dirx : Int
  ball_diry : Int
  termination_flag : Bool
  winner : Int
  deriving Repr, DecidableEq

/-- The keys the keyboard handler distinguishes (support.c `switch (ch)`). -/
inductive Key where
  | up
  | down
  | play
  | quit
  | other
  deriving Repr, DecidableEq

/-- One iteration of the body of `keyboard_handler` (support.c lines 57-90):
given the key read, the updated shared data and the list of tags written to
the pipe, in order. -/
def keyboardStep (H : Int) (data : game_data) (ch : Key) :
    game_data × List String :=
  match ch with
  | .up =>
      let data := { data with paddle_pos_old := data.paddle_pos }
      let data :=
        if data.paddle_pos > PADDLE_TOP then
          { data with paddle_pos := data.paddle_pos - 1 }
        else data
      (data, [KBD_TAG])
  | .down =>
      let data := { data with paddle_pos_old := data.paddle_pos }
      let data :=
        if data.paddle_pos < PADDLE_BOT H then
          { data with paddle_pos := data.paddle_pos + 1 }
        else data
      (data, [KBD_TAG])
  | .play =>
      ({ data with play_flag := true }, [])
  | .quit =>
      ({ data with exit_flag := true }, [QUIT_TAG])
  | .other =>
      (data, [])

/-- The loop guard of `keyboard_handler` (support.c line 48):
`while (!data->termination_flag)`. -/
def keyboardLoopGuard (data : game_data) : Bool :=
  !data.termination_flag

/-- The controller's post-round action (pong.c line 232):
`data.termination_flag = 1`. -/
def controllerEndRound (data : game_data) : game_data :=
  { data with termination_flag := true }

/-- Ball coordinate update at the top of the `ball_handler` loop body
(support.c lines 106-109). -/
def moveBall (data : game_data) : game_data :=
  { data with
      ball_y_old := data.ball_y
      ball_x_old := data.ball_x
      ball_y := data.ball_y + data.ball_diry
      ball_x := data.ball_x + data.ball_dirx }

/-- Reflection of the ball on field top and bottom (support.c lines 112-116):
if the updated `ball_y` left `[FIELD_TOP, FIELD_BOT]`, `ball_diry` is negated
and `ball_y` moved by `2 * ball_diry` (the new direction). -/
def wallBounce (H : Int) (data : game_data) : game_data :=
  if data.ball_y < FIELD_TOP ∨ data.ball_y > FIELD_BOT H then
    { data with
        ball_diry := -data.ball_diry
        ball_y := data.ball_y + 2 * -data.ball_diry }
  else data

/-- Result of one iteration of the `ball_handler` loop body: the updated
shared data, the tags written to the pipe in order, the values assigned to
`data->winner` in order, and whether the thread returned (terminated). -/
structure BallStepResult where
  data : game_data
  tags : List String
  winnerWrites : List Int
  terminated : Bool
  deriving Repr, DecidableEq

/-- The AI-pad reflection part of the `ball_handler` loop body
(support.c lines 145-171), run after the player-pad check when that check
did not end the round; includes the final `BALL_TAG` write. -/
def ballStepAI (data : game_data) : BallStepResult :=
  if data.ball_x + 1 = data.ai_paddle_col then
    if |data.ai_paddle_pos - data.ball_y - -data.ball_diry| ≤ PADDLE_WIDTH / 2
    then
      let data := { data with ball_dirx := -data.ball_dirx }
      let data := { data with ball_x := data.ball_x + 2 * data.ball_dirx }
      { data := data, tags := [BALL_TAG], winnerWrites := [],
        terminated := false }
    else
      { data := { data with play_flag := false, winner := 0 },
        tags := [QUIT_TAG], winnerWrites := [0], terminated := true }
  else
    { data := data, tags := [BALL_TAG], winnerWrites := [],
      terminated := false }

/-- The player-pad check of the `ball_handler` loop body
(support.c lines 119-142), applied to the state after the coordinate update
and the wall reflection, followed by the AI-pad check. -/
def padPhase (data : game_data) : BallStepResult :=
  if data.ball_x = data.paddle_col then
    if |data.paddle_pos - data.ball_y - -data.ball_diry| ≤ PADDLE_WIDTH / 2
    then
      let data := { data with ball_dirx := -data.ball_dirx }
      let data := { data with ball_x := data.ball_x + 2 * data.ball_dirx }
      ballStepAI data
    else
      { data := { data with play_flag := false, winner := 1 },
        tags := [QUIT_TAG], winnerWrites := [1], terminated := true }
  else
    ballStepAI data

/-- One iteration of the `ball_handler` loop body (support.c lines 106-173):
move the ball, reflect on the walls, then the player-pad check followed by
the AI-pad check. -/
def ballStep (H : Int) (data : game_data) : BallStepResult :=
  padPhase (wallBounce H (moveBall data))

/-- Condition under which the player-pad check of `ball_handler` ends the
round (support.c lines 119-141, `else` branch): the ball column has reached
the player paddle column and the hit test fails. -/
def playerPadMiss (data : game_data) : Prop :=
  data.ball_x = data.paddle_col ∧
  ¬ (|data.paddle_pos - data.ball_y - -data.ball_diry| ≤ PADDLE_WIDTH / 2)

instance (data : game_data) : Decidable (playerPadMiss data) := by
  unfold playerPadMiss; infer_instance

/-- The candidate new AI-paddle position computed by `ai_handler`
(support.c lines 188-189):
`ai_paddle_pos + diff / (diff == 0 ? 1 : abs(diff))`. -/
def aiCandidate (data : game_data) : Int :=
  let diff := data.ball_y - data.ai_paddle_pos
  data.ai_paddle_pos + diff / (if diff = 0 then 1 else |diff|)

/-- One iteration of the `ai_handler` loop body (support.c lines 188-196). -/
def aiStep (H : Int) (data : game_data) : game_data × List String :=
  let n := aiCandidate data
  let data := { data with ai_paddle_pos_old := data.ai_paddle_pos }
  let data :=
    if n ≥ PADDLE_TOP ∧ n ≤ PADDLE_BOT H then
      { data with ai_paddle_pos := n }
    else data
  (data, [AI_TAG])

/-- The entities the render controller can erase or draw. -/
inductive RenderAction where
  | erasePlayerPaddle
  | drawPlayerPaddle
  | eraseAiPaddle
  | drawAiPaddle
  | eraseBall
  | drawBall
  deriving Repr, DecidableEq

/-- The dispatch on the tag read from the pipe inside the render loop's
critical section (pong.c lines 212-226): three independent string
comparisons, each erasing and redrawing one entity. -/
def renderDispatch (buf : String) : List RenderAction :=
  (if buf = KBD_TAG then
    [RenderAction.erasePlayerPaddle, RenderAction.drawPlayerPaddle]
  else []) ++
  (if buf = AI_TAG then
    [RenderAction.eraseAiPaddle, RenderAction.drawAiPaddle]
  else []) ++
  (if buf = BALL_TAG then
    [RenderAction.eraseBall, RenderAction.drawBall]
  else [])

/-- The guard of the render loop (pong.c line 206):
`while (!data.exit_flag && data.play_flag)`. -/
def playingLoopGuard (data : game_data) : Bool :=
  !data.exit_flag && data.play_flag

/-- The exit code of `termination_handler` (support.c line 278): `exit(1)`. -/
def terminationHandlerExitCode : Nat := 1

/-- The distinct ways the process can exit in pong.c `main`. -/
inductive ExitEvent where
  | pipeFailure
  | colorFailure
  | menuQuit
  | inGameQuit
  deriving Repr, DecidableEq

/-- Exit code of the process for each exit path of pong.c `main`:
pipe-creation failure exits `EXIT_FAILURE` (line 106), color-capability
failure exits `EXIT_FAILURE` (line 123), pressing the quit key at the menu
calls `termination_handler` (line 156) which exits 1, and a quit issued
during play falls through to `return 0` (line 255). -/
def exitCode : ExitEvent → Nat
  | .pipeFailure => 1
  | .colorFailure => 1
  | .menuQuit => terminationHandlerExitCode
  | .inGameQuit => 0

/-! ## Helper lemmas and sample states -/

/-- A representative in-play state on a 24-row screen: paddles centred,
ball mid-field moving down-right, round active. -/
def sampleState : game_data :=
  { paddle_pos := 10, paddle_col := 79, ai_paddle_pos := 10, ai_paddle_col := 1,
    ball_x := 40, ball_y := 10, paddle_pos_old := 10, ai_paddle_pos_old := 10,
    ball_x_old := 40, ball_y_old := 10, exit_flag := false, play_flag := true,
    ball_dirx := 1, ball_diry := 1, termination_flag := false, winner := 0 }

/-- Quotient of an integer by its guarded absolute value, as computed by
`ai_handler`, equals its sign (with the C division exact in every case). -/
lemma div_guarded_abs_eq_sign (d : Int) :
    d / (if d = 0 then 1 else |d|) = d.sign := by
  rcases lt_trichotomy d 0 with h | h | h
  · have hne : d ≠ 0 := ne_of_lt h
    rw [if_neg hne, abs_of_neg h, Int.ediv_neg, Int.ediv_self hne,
      Int.sign_eq_neg_one_iff_neg.mpr h]
  · simp [h]
  · have hne : d ≠ 0 := ne_of_gt h
    rw [if_neg hne, abs_of_pos h, Int.ediv_self hne,
      Int.sign_eq_one_iff_pos.mpr h]

/-- Moving the ball and reflecting it on the walls changes no field other
than the ball coordinates, their saved copies, and the vertical direction. -/
lemma wallBounce_moveBall_frame (H : Int) (data : game_data) :
    (wallBounce H (moveBall data)).play_flag = data.play_flag ∧
    (wallBounce H (moveBall data)).winner = data.winner ∧
    (wallBounce H (moveBall data)).paddle_pos = data.paddle_pos ∧
    (wallBounce H (moveBall data)).paddle_col = data.paddle_col ∧
    (wallBounce H (moveBall data)).ai_paddle_pos = data.ai_paddle_pos ∧
    (wallBounce H (moveBall data)).ai_paddle_col = data.ai_paddle_col := by
  unfold wallBounce moveBall
  split <;> exact ⟨rfl, rfl, rfl, rfl, rfl, rfl⟩


/-- C7 counterexample: quitting from the menu between rounds goes through
`termination_handler`, which exits with code 1, not 0. -/
theorem menuQuit_exit_code_nonzero : ¬ exitCode ExitEvent.menuQuit = 0 := by
  decide

/-- C7 (amended): exit code 0 exactly on a quit issued during play; exit
code 1 on color-capability failure, on pipe-creation failure, and also on a
quit issued from the menu (which runs `termination_handler`). -/
theorem exit_code_per_path :
    exitCode ExitEvent.inGameQuit = 0 ∧
    exitCode ExitEvent.colorFailure = 1 ∧
    exitCode ExitEvent.pipeFailure = 1 ∧
    exitCode ExitEvent.menuQuit = 1 := by
  decide

/-- C8: handling the quit key sets `exit_flag`, pushes exactly one
`QUIT_TAG`, and leaves `termination_flag`, both paddles and the ball
untouched, so the keyboard loop guard is unchanged; only the controller's
post-round action falsifies the guard. -/
theorem quit_key_frame (H : Int) (data : game_data) :
    (keyboardStep H data Key.quit).1.exit_flag = true ∧
    (keyboardStep H data Key.quit).2 = [QUIT_TAG] ∧
    (keyboardStep H data Key.quit).1.termination_flag =
      data.termination_flag ∧
    (keyboardStep H data Key.quit).1.paddle_pos = data.paddle_pos ∧
    (keyboardStep H data Key.quit).1.paddle_pos_old = data.paddle_pos_old ∧
    (keyboardStep H data Key.quit).1.ai_paddle_pos = data.ai_paddle_pos ∧
    (keyboardStep H data Key.quit).1.ai_paddle_pos_old =
      data.ai_paddle_pos_old ∧
    (keyboardStep H data Key.quit).1.ball_x = data.ball_x ∧
    (keyboardStep H data Key.quit).1.ball_y = data.ball_y ∧
    (keyboardStep H data Key.quit).1.ball_dirx = data.ball_dirx ∧
    (keyboardStep H data Key.quit).1.ball_diry = data.ball_diry ∧
    keyboardLoopGuard (keyboardStep H data Key.quit).1 =
      keyboardLoopGuard data ∧
    keyboardLoopGuard (controllerEndRound (keyboardStep H data Key.quit).1) =
      false := by
  simp [keyboardStep, keyboardLoopGuard, controllerEndRound]

/-- C9: the render dispatch erases and redraws exactly the entity named by
the tag, and performs no render action on the quit tag. -/
theorem renderDispatch_exact :
    renderDispatch KBD_TAG =
      [RenderAction.erasePlayerPaddle, RenderAction.drawPlayerPaddle] ∧
    renderDispatch AI_TAG =
      [RenderAction.eraseAiPaddle, RenderAction.drawAiPaddle] ∧
    renderDispatch BALL_TAG =
      [RenderAction.eraseBall, RenderAction.drawBall] ∧
    renderDispatch QUIT_TAG = [] := by
  refine ⟨rfl, rfl, rfl, rfl⟩

/-- C10: an up key at the top bound (or a down key at the bottom bound)
leaves the position unchanged, still overwrites the saved previous position
with the same value, and still pushes a `KBD_TAG`. -/
theorem clamped_key_effects (H : Int) (data : game_data) :
    (data.paddle_pos = PADDLE_TOP →
      (keyboardStep H data Key.up).1.paddle_pos = data.paddle_pos ∧
      (keyboardStep H data Key.up).1.paddle_pos_old =
        (keyboardStep H data Key.up).1.paddle_pos ∧
      (keyboardStep H data Key.up).2 = [KBD_TAG]) ∧
    (data.paddle_pos = PADDLE_BOT H →
      (keyboardStep H data Key.down).1.paddle_pos = data.paddle_pos ∧
      (keyboardStep H data Key.down).1.paddle_pos_old =
        (keyboardStep H data Key.down).1.paddle_pos ∧
      (keyboardStep H data Key.down).2 = [KBD_TAG]) := by
  constructor
  · intro h
    simp [keyboardStep, h]
  · intro h
    simp [keyboardStep, h]

theorem clamped_key_effects_witness :
    ((keyboardStep 24 { sampleState with paddle_pos := PADDLE_TOP }
        Key.up).1.paddle_pos =
      ({ sampleState with paddle_pos := PADDLE_TOP } : game_data).paddle_pos)
    ∧
    ((keyboardStep 24 { sampleState with paddle_pos := PADDLE_BOT 24 }
        Key.down).1.paddle_pos =
      ({ sampleState with paddle_pos := PADDLE_BOT 24 } :
        game_data).paddle_pos) :=
  ⟨((clamped_key_effects 24
      { sampleState with paddle_pos := PADDLE_TOP }).1 rfl).1,
   ((clamped_key_effects 24
      { sampleState with paddle_pos := PADDLE_BOT 24 }).2 rfl).1⟩


lemma aiCandidate_def (data : game_data) :
    aiCandidate data =
      data.ai_paddle_pos + (data.ball_y - data.ai_paddle_pos) /
        (if data.ball_y - data.ai_paddle_pos = 0 then 1
         else |data.ball_y - data.ai_paddle_pos|) := rfl

/-- The AI-paddle position after one AI tick: the candidate when it is
within bounds, the old position otherwise. -/
lemma aiStep_pos (H : Int) (data : game_data) :
    (aiStep H data).1.ai_paddle_pos =
      if aiCandidate data ≥ PADDLE_TOP ∧ aiCandidate data ≤ PADDLE_BOT H
      then aiCandidate data else data.ai_paddle_pos := by
  simp only [aiStep]
  split_ifs with h <;> rfl

/-- C2 counterexample: with the ball level with the AI paddle (both at row
10 on a 24-row screen, 11 within bounds), the tick leaves the paddle at 10;
it does not move to 11 as the sign(0)=+1 convention would predict. -/
theorem ai_sign_zero_counterexample :
    sampleState.ball_y = sampleState.ai_paddle_pos ∧
    PADDLE_TOP ≤ sampleState.ai_paddle_pos + 1 ∧
    sampleState.ai_paddle_pos + 1 ≤ PADDLE_BOT 24 ∧
    ¬ (aiStep 24 sampleState).1.ai_paddle_pos =
        sampleState.ai_paddle_pos + 1 := by
  decide

/-- C2 (amended): the candidate new position equals
`ai_paddle_pos + sign(ball_y - ai_paddle_pos)` with sign(0) = 0 (the guarded
division yields 0 when the difference is 0); in particular, when `ball_y`
equals `ai_paddle_pos` the position is unchanged after the tick. -/
theorem aiCandidate_eq_sign (H : Int) (data : game_data) :
    aiCandidate data =
      data.ai_paddle_pos + (data.ball_y - data.ai_paddle_pos).sign ∧
    (data.ball_y = data.ai_paddle_pos →
      (aiStep H data).1.ai_paddle_pos = data.ai_paddle_pos) := by
  have hc : aiCandidate data =
      data.ai_paddle_pos + (data.ball_y - data.ai_paddle_pos).sign := by
    rw [aiCandidate_def, div_guarded_abs_eq_sign]
  refine ⟨hc, fun h => ?_⟩
  have hz : aiCandidate data = data.ai_paddle_pos := by
    rw [hc, h]
    simp
  rw [aiStep_pos, hz]
  split <;> rfl

theorem aiCandidate_eq_sign_witness :
    aiCandidate sampleState =
      sampleState.ai_paddle_pos +
        (sampleState.ball_y - sampleState.ai_paddle_pos).sign ∧
    (aiStep 24 sampleState).1.ai_paddle_pos = sampleState.ai_paddle_pos :=
  ⟨(aiCandidate_eq_sign 24 sampleState).1,
   (aiCandidate_eq_sign 24 sampleState).2 (by decide)⟩

/-- C3: when the ball is strictly below the AI paddle centre and the
incremented position is within the paddle bounds, the AI paddle moves down
by one; when the ball is level with the paddle centre, it stays put. -/
theorem ai_pursuit (H : Int) (data : game_data) :
    (data.ai_paddle_pos < data.ball_y →
      PADDLE_TOP ≤ data.ai_paddle_pos + 1 →
      data.ai_paddle_pos + 1 ≤ PADDLE_BOT H →
      (aiStep H data).1.ai_paddle_pos = data.ai_paddle_pos + 1) ∧
    (data.ball_y = data.ai_paddle_pos →
      (aiStep H data).1.ai_paddle_pos = data.ai_paddle_pos) := by
  have hc : aiCandidate data =
      data.ai_paddle_pos + (data.ball_y - data.ai_paddle_pos).sign := by
    rw [aiCandidate_def, div_guarded_abs_eq_sign]
  constructor
  · intro hlt h1 h2
    have hs : (data.ball_y - data.ai_paddle_pos).sign = 1 :=
      Int.sign_eq_one_iff_pos.mpr (by omega)
    have hcand : aiCandidate data = data.ai_paddle_pos + 1 := by
      rw [hc, hs]
    rw [aiStep_pos, hcand, if_pos ⟨h1, h2⟩]
  · intro h
    have hz : aiCandidate data = data.ai_paddle_pos := by
      rw [hc, h]
      simp
    rw [aiStep_pos, hz]
    split <;> rfl

theorem ai_pursuit_witness :
    (aiStep 24 { sampleState with ball_y := 15 }).1.ai_paddle_pos =
      ({ sampleState with ball_y := 15 } : game_data).ai_paddle_pos + 1 ∧
    (aiStep 24 sampleState).1.ai_paddle_pos = sampleState.ai_paddle_pos :=
  ⟨(ai_pursuit 24 { sampleState with ball_y := 15 }).1 (by decide)
      (by decide) (by decide),
   (ai_pursuit 24 sampleState).2 (by decide)⟩


/-- The player-paddle position after one keyboard step. -/
lemma keyboardStep_pos (H : Int) (data : game_data) (ch : Key) :
    (keyboardStep H data ch).1.paddle_pos =
      match ch with
      | .up => if data.paddle_pos > PADDLE_TOP then data.paddle_pos - 1
               else data.paddle_pos
      | .down => if data.paddle_pos < PADDLE_BOT H then data.paddle_pos + 1
                 else data.paddle_pos
      | _ => data.paddle_pos := by
  cases ch <;> simp only [keyboardStep] <;> try rfl
  all_goals split_ifs <;> rfl

/-- A keyboard step never changes the AI-paddle position. -/
lemma keyboardStep_ai_pos (H : Int) (data : game_data) (ch : Key) :
    (keyboardStep H data ch).1.ai_paddle_pos = data.ai_paddle_pos := by
  cases ch <;> simp only [keyboardStep] <;> try rfl
  all_goals split_ifs <;> rfl

/-- An AI step never changes the player-paddle position. -/
lemma aiStep_player_pos (H : Int) (data : game_data) :
    (aiStep H data).1.paddle_pos = data.paddle_pos := by
  simp only [aiStep]
  split_ifs <;> rfl

/-- C4: one input-worker step (any key) and one AI-worker step both keep
the player and AI paddle positions within `[PADDLE_TOP, PADDLE_BOT]` when
they were within those bounds before. -/
theorem paddle_bounds_preserved (H : Int) (data : game_data) (ch : Key)
    (h1 : PADDLE_TOP ≤ data.paddle_pos) (h2 : data.paddle_pos ≤ PADDLE_BOT H)
    (h3 : PADDLE_TOP ≤ data.ai_paddle_pos)
    (h4 : data.ai_paddle_pos ≤ PADDLE_BOT H) :
    (PADDLE_TOP ≤ (keyboardStep H data ch).1.paddle_pos ∧
     (keyboardStep H data ch).1.paddle_pos ≤ PADDLE_BOT H ∧
     PADDLE_TOP ≤ (keyboardStep H data ch).1.ai_paddle_pos ∧
     (keyboardStep H data ch).1.ai_paddle_pos ≤ PADDLE_BOT H) ∧
    (PADDLE_TOP ≤ (aiStep H data).1.paddle_pos ∧
     (aiStep H data).1.paddle_pos ≤ PADDLE_BOT H ∧
     PADDLE_TOP ≤ (aiStep H data).1.ai_paddle_pos ∧
     (aiStep H data).1.ai_paddle_pos ≤ PADDLE_BOT H) := by
  constructor
  · rw [keyboardStep_pos, keyboardStep_ai_pos]
    refine ⟨?_, ?_, h3, h4⟩ <;>
      cases ch <;>
      simp only [PADDLE_TOP, PADDLE_BOT, PADDLE_WIDTH] at * <;>
      first
        | (split_ifs <;> omega)
        | omega
  · rw [aiStep_player_pos, aiStep_pos]
    split_ifs with h
    · exact ⟨h1, h2, h.1, h.2⟩
    · exact ⟨h1, h2, h3, h4⟩

theorem paddle_bounds_preserved_witness :
    PADDLE_TOP ≤ sampleState.paddle_pos ∧
    sampleState.paddle_pos ≤ PADDLE_BOT 24 ∧
    PADDLE_TOP ≤ (keyboardStep 24 sampleState Key.up).1.paddle_pos ∧
    PADDLE_TOP ≤ (aiStep 24 sampleState).1.ai_paddle_pos :=
  ⟨by decide, by decide,
   (paddle_bounds_preserved 24 sampleState Key.up (by decide) (by decide)
      (by decide) (by decide)).1.1,
   (paddle_bounds_preserved 24 sampleState Key.up (by decide) (by decide)
      (by decide) (by decide)).2.2.2.1⟩

/-- The ball row after the coordinate update and the wall reflection. -/
lemma wallBounce_moveBall_ball_y (H : Int) (data : game_data) :
    (wallBounce H (moveBall data)).ball_y =
      if data.ball_y + data.ball_diry < FIELD_TOP ∨
         data.ball_y + data.ball_diry > FIELD_BOT H
      then data.ball_y + data.ball_diry + 2 * -data.ball_diry
      else data.ball_y + data.ball_diry := by
  simp only [wallBounce, moveBall]
  split_ifs <;> rfl

/-- C5: on a nondegenerate field, if the ball row was within
`[FIELD_TOP, FIELD_BOT]` and the vertical velocity is a unit step, then
after the coordinate update followed by the wall-bounce resolution the ball
row is again within `[FIELD_TOP, FIELD_BOT]`. -/
theorem ball_row_in_field (H : Int) (data : game_data)
    (h1 : FIELD_TOP ≤ data.ball_y) (h2 : data.ball_y ≤ FIELD_BOT H)
    (hd : data.ball_diry = 1 ∨ data.ball_diry = -1)
    (hH : FIELD_TOP + 1 ≤ FIELD_BOT H) :
    FIELD_TOP ≤ (wallBounce H (moveBall data)).ball_y ∧
    (wallBounce H (moveBall data)).ball_y ≤ FIELD_BOT H := by
  rw [wallBounce_moveBall_ball_y]
  simp only [FIELD_TOP, FIELD_BOT] at *
  split_ifs with h <;> omega

theorem ball_row_in_field_witness :
    FIELD_TOP ≤ (wallBounce 24 (moveBall sampleState)).ball_y ∧
    (wallBounce 24 (moveBall sampleState)).ball_y ≤ FIELD_BOT 24 :=
  ball_row_in_field 24 sampleState (by decide) (by decide)
    (Or.inl (by decide)) (by decide)


/-- C6: a physics tick on an active round clears `play_flag` exactly when
it writes `winner` exactly once, terminates, and pushed a lone `QUIT_TAG`;
the winner written is the AI (1) exactly on a player-pad miss and the
player (0) on an AI-pad miss; no tick writes `winner` while `play_flag`
stays true. -/
theorem round_end_iff (H : Int) (data : game_data)
    (hp : data.play_flag = true) :
    ((ballStep H data).data.play_flag = false ↔
      (ballStep H data).winnerWrites.length = 1 ∧
      (ballStep H data).terminated = true ∧
      (ballStep H data).tags = [QUIT_TAG]) ∧
    ((ballStep H data).terminated = true →
      (ballStep H data).winnerWrites = [(ballStep H data).data.winner] ∧
      (playerPadMiss (wallBounce H (moveBall data)) →
        (ballStep H data).data.winner = 1) ∧
      (¬ playerPadMiss (wallBounce H (moveBall data)) →
        (ballStep H data).data.winner = 0)) ∧
    ((ballStep H data).data.play_flag = true →
      (ballStep H data).winnerWrites = []) := by
  have hs1 : (wallBounce H (moveBall data)).play_flag = true := by
    rw [(wallBounce_moveBall_frame H data).1]
    exact hp
  unfold ballStep
  generalize wallBounce H (moveBall data) = s1 at hs1 ⊢
  unfold padPhase ballStepAI playerPadMiss
  split_ifs <;> simp_all
  all_goals split_ifs <;> simp_all

theorem round_end_iff_witness :
    ((ballStep 24 sampleState).data.play_flag = false ↔
      (ballStep 24 sampleState).winnerWrites.length = 1 ∧
      (ballStep 24 sampleState).terminated = true ∧
      (ballStep 24 sampleState).tags = [QUIT_TAG]) ∧
    ((ballStep 24 sampleState).data.play_flag = true →
      (ballStep 24 sampleState).winnerWrites = []) :=
  ⟨(round_end_iff 24 sampleState rfl).1,
   (round_end_iff 24 sampleState rfl).2.2⟩


/-- C1: at the player-pad check (the state after the coordinate update and
wall reflection), when the ball column equals the player paddle column and
the post-hit rebound does not land on the AI paddle column, the round
continues with the horizontal velocity inverted and the ball moved by twice
the new velocity exactly when the hit test
`|paddle_pos - (ball_y - ball_diry)| <= PADDLE_WIDTH / 2` passes; otherwise
the round ends with the AI as winner.  In particular a unit-velocity ball
level with the paddle centre is a hit, and one `PADDLE_WIDTH` below the
centre is a miss won by the AI. -/
theorem player_pad_resolution (s : game_data)
    (hx : s.ball_x = s.paddle_col)
    (hsep : ¬ s.ball_x + 2 * -s.ball_dirx + 1 = s.ai_paddle_col) :
    (if |s.paddle_pos - (s.ball_y - s.ball_diry)| ≤ PADDLE_WIDTH / 2 then
      (padPhase s).data.ball_dirx = -s.ball_dirx ∧
      (padPhase s).data.ball_x = s.ball_x + 2 * -s.ball_dirx ∧
      (padPhase s).terminated = false ∧
      (padPhase s).data.play_flag = s.play_flag ∧
      (padPhase s).winnerWrites = []
    else
      (padPhase s).data.play_flag = false ∧
      (padPhase s).data.winner = 1 ∧
      (padPhase s).winnerWrites = [1] ∧
      (padPhase s).terminated = true ∧
      (padPhase s).tags = [QUIT_TAG]) ∧
    ((s.ball_diry = 1 ∨ s.ball_diry = -1) → s.ball_y = s.paddle_pos →
      (padPhase s).terminated = false ∧
      (padPhase s).data.ball_dirx = -s.ball_dirx) ∧
    ((s.ball_diry = 1 ∨ s.ball_diry = -1) →
      s.ball_y = s.paddle_pos + PADDLE_WIDTH →
      (padPhase s).data.play_flag = false ∧
      (padPhase s).data.winner = 1 ∧
      (padPhase s).terminated = true) := by
  have harg : s.paddle_pos - s.ball_y - -s.ball_diry =
      s.paddle_pos - (s.ball_y - s.ball_diry) := by ring
  have main :
      if |s.paddle_pos - (s.ball_y - s.ball_diry)| ≤ PADDLE_WIDTH / 2 then
        (padPhase s).data.ball_dirx = -s.ball_dirx ∧
        (padPhase s).data.ball_x = s.ball_x + 2 * -s.ball_dirx ∧
        (padPhase s).terminated = false ∧
        (padPhase s).data.play_flag = s.play_flag ∧
        (padPhase s).winnerWrites = []
      else
        (padPhase s).data.play_flag = false ∧
        (padPhase s).data.winner = 1 ∧
        (padPhase s).winnerWrites = [1] ∧
        (padPhase s).terminated = true ∧
        (padPhase s).tags = [QUIT_TAG] := by
    unfold padPhase ballStepAI
    rw [harg]
    split_ifs <;> simp_all
  refine ⟨main, ?_, ?_⟩
  · intro hd hy
    have hcond : |s.paddle_pos - (s.ball_y - s.ball_diry)| ≤
        PADDLE_WIDTH / 2 := by
      rcases hd with h | h <;> rw [hy, h, sub_sub_cancel] <;> decide
    rw [if_pos hcond] at main
    exact ⟨main.2.2.1, main.1⟩
  · intro hd hy
    have hcond : ¬ |s.paddle_pos - (s.ball_y - s.ball_diry)| ≤
        PADDLE_WIDTH / 2 := by
      rcases hd with h | h <;> rw [hy, h] <;>
        [ (have he : s.paddle_pos - (s.paddle_pos + PADDLE_WIDTH - 1) =
            -4 := by simp only [PADDLE_WIDTH]; ring);
          (have he : s.paddle_pos - (s.paddle_pos + PADDLE_WIDTH - -1) =
            -6 := by simp only [PADDLE_WIDTH]; ring) ] <;>
        rw [he] <;> decide
    rw [if_neg hcond] at main
    exact ⟨main.1, main.2.1, main.2.2.2.1⟩

theorem player_pad_resolution_witness :
    (padPhase { sampleState with ball_x := 79 }).terminated = false ∧
    (padPhase { sampleState with ball_x := 79 }).data.ball_dirx =
      -({ sampleState with ball_x := 79 } : game_data).ball_dirx :=
  (player_pad_resolution { sampleState with ball_x := 79 } (by decide)
      (by decide)).2.1 (Or.inl (by decide)) (by decide)

end Pong
